import Mathlib

/-!
Verification of the resilience core of the ai-newsletter repository
(`retry_utils.py`) and the degrade-to-empty fallback of its calling layer
(`news.py`), via a shallow embedding.

Python exceptions are modelled as values of `Err` carrying the exception
class name (`kind`) and message; raising is modelled with explicit
`Except` / outcome values; wall-clock time and float delays are modelled
as rationals, passed explicitly.
-/

/-- A Python exception value: its class name (`kind`) and its message. -/
structure Err where
  kind : String
  msg : String
deriving DecidableEq, Repr

/-- The configuration of `retry_with_backoff` (retry_utils.py, lines 11-17):
`max_attempts`, `base_delay`, `max_delay`, `backoff_multiplier`, and the
tuple `exceptions` of exception classes that are caught and retried,
modelled as the list of their class names. -/
structure RetryPolicy where
  max_attempts : Nat
  base_delay : ℚ
  max_delay : ℚ
  backoff_multiplier : ℚ
  retryable_kinds : List String
deriving DecidableEq, Repr

/-- Outcome of one call through the retry wrapper: a returned value, a
raised exception, or the fall-through `raise last_exception` at line 44
executed with `last_exception = None` (raising `None` is not a valid
error value in Python). -/
inductive ROutcome (α : Type) where
  | ok (v : α)
  | raised (e : Err)
  | raisedNone
deriving DecidableEq, Repr

/-- Observable trace of one call through the retry wrapper: how many times
the wrapped function was invoked, the list of `time.sleep` delays in
order, and the final outcome. -/
structure RetryResult (α : Type) where
  invocations : Nat
  delays : List ℚ
  result : ROutcome α
deriving DecidableEq, Repr

/-- `min(base_delay * (backoff_multiplier ** attempt), max_delay)`
(retry_utils.py, line 38). -/
def backoffDelay (p : RetryPolicy) (attempt : Nat) : ℚ :=
  min (p.base_delay * p.backoff_multiplier ^ attempt) p.max_delay

/-- The `for attempt in range(max_attempts)` loop of `wrapper`
(retry_utils.py, lines 26-41). `op i` is the outcome of the i-th
invocation of `func` (0-based). `fuel` is the number of loop iterations
left (`max_attempts - attempt`); when the loop ends without returning,
line 44 raises `last_exception`, which is still `None` since every
iteration either returns, raises, or continues after a sleep. -/
def retryAux {α : Type} (p : RetryPolicy) (op : Nat → Except Err α) :
    Nat → Nat → RetryResult α
  | _, 0 => ⟨0, [], .raisedNone⟩
  | attempt, fuel + 1 =>
    match op attempt with
    | .ok v => ⟨1, [], .ok v⟩
    | .error e =>
      if e.kind ∈ p.retryable_kinds then
        if attempt = p.max_attempts - 1 then
          ⟨1, [], .raised e⟩
        else
          let rest := retryAux p op (attempt + 1) fuel
          ⟨rest.invocations + 1, backoffDelay p attempt :: rest.delays, rest.result⟩
      else
        ⟨1, [], .raised e⟩

/-- One call through the wrapper produced by `retry_with_backoff(p)`
applied to an operation whose i-th invocation yields `op i`. -/
def runRetry {α : Type} (p : RetryPolicy) (op : Nat → Except Err α) : RetryResult α :=
  retryAux p op 0 p.max_attempts

/-- The `state` field of `CircuitBreaker` (retry_utils.py, line 59). -/
inductive CBState where
  | CLOSED
  | OPEN
  | HALF_OPEN
deriving DecidableEq, Repr

/-- The mutable fields of `CircuitBreaker.__init__` (retry_utils.py,
lines 54-59) together with its configuration. -/
structure CircuitBreaker where
  failure_threshold : Nat
  recovery_timeout : ℚ
  failure_count : Nat
  last_failure_time : Option ℚ
  state : CBState
deriving DecidableEq, Repr

/-- `CircuitBreaker.__init__`: `failure_count = 0`,
`last_failure_time = None`, `state = 'CLOSED'`. -/
def CircuitBreaker.init (failure_threshold : Nat) (recovery_timeout : ℚ) :
    CircuitBreaker :=
  ⟨failure_threshold, recovery_timeout, 0, none, .CLOSED⟩

/-- `CircuitBreaker._should_attempt_reset` (retry_utils.py, lines 80-84):
true iff `last_failure_time` is `None` or
`time.time() - last_failure_time >= recovery_timeout`. -/
def CircuitBreaker.should_attempt_reset (cb : CircuitBreaker) (now : ℚ) : Bool :=
  match cb.last_failure_time with
  | none => true
  | some t => decide (cb.recovery_timeout ≤ now - t)

/-- `CircuitBreaker._on_success` (retry_utils.py, lines 86-89):
`failure_count = 0`, `state = 'CLOSED'`. -/
def CircuitBreaker.on_success (cb : CircuitBreaker) : CircuitBreaker :=
  { cb with failure_count := 0, state := .CLOSED }

/-- `CircuitBreaker._on_failure` (retry_utils.py, lines 91-98): increment
`failure_count`, set `last_failure_time = time.time()`, and set
`state = 'OPEN'` when `failure_count >= failure_threshold` (otherwise the
state field is left as it was). -/
def CircuitBreaker.on_failure (cb : CircuitBreaker) (now : ℚ) : CircuitBreaker :=
  let cb' := { cb with failure_count := cb.failure_count + 1,
                       last_failure_time := some now }
  if cb'.failure_threshold ≤ cb'.failure_count then
    { cb' with state := .OPEN }
  else
    cb'

/-- The exception object built at retry_utils.py line 68:
`Exception(f"Circuit breaker is OPEN for {func.__name__}")` — its class is
the plain `Exception`. -/
def circuitOpenError (fname : String) : Err :=
  ⟨"Exception", "Circuit breaker is OPEN for " ++ fname⟩

/-- Observable trace of one call through a `CircuitBreaker` wrapper: the
breaker's state after the call, the call's outcome, and whether the
wrapped function was invoked. -/
structure CBCall (α : Type) where
  cb : CircuitBreaker
  result : Except Err α
  invoked : Bool
deriving Repr

/-- The `try/except` body of the breaker's `wrapper` (retry_utils.py,
lines 70-76): invoke the function, then `_on_success` and return the
result, or `_on_failure` and re-raise. `opRes` is the outcome the
wrapped function produces when invoked now. -/
def CircuitBreaker.runOp {α : Type} (cb : CircuitBreaker) (now : ℚ)
    (opRes : Except Err α) : CBCall α :=
  match opRes with
  | .ok v => ⟨cb.on_success, .ok v, true⟩
  | .error e => ⟨cb.on_failure now, .error e, true⟩

/-- One call through the wrapper of `CircuitBreaker.__call__`
(retry_utils.py, lines 61-78): while OPEN, either move to HALF_OPEN and
fall through to the attempt, or raise the circuit-open `Exception`
without invoking the function. -/
def CircuitBreaker.call {α : Type} (cb : CircuitBreaker) (fname : String)
    (now : ℚ) (opRes : Except Err α) : CBCall α :=
  if cb.state = .OPEN then
    if cb.should_attempt_reset now then
      ({ cb with state := .HALF_OPEN }).runOp now opRes
    else
      ⟨cb, .error (circuitOpenError fname), false⟩
  else
    cb.runOp now opRes

/-- States of a `CircuitBreaker` reachable from `__init__` by any
sequence of calls through its wrapper; each call supplies the wrapped
function's name, the current time, and the outcome the wrapped operation
would produce if invoked. -/
inductive CBReachable (th : Nat) (rt : ℚ) : CircuitBreaker → Prop
  | init : CBReachable th rt (CircuitBreaker.init th rt)
  | step (cb : CircuitBreaker) (fname : String) (now : ℚ)
      (opRes : Except Err Unit) :
      CBReachable th rt cb → CBReachable th rt (cb.call fname now opRes).cb

/-- The circuit breaker's state invariant, strengthened with a HALF_OPEN
clause so that it is inductive. -/
def CBInv (cb : CircuitBreaker) : Prop :=
  (cb.state = .OPEN →
    cb.failure_threshold ≤ cb.failure_count ∧ cb.last_failure_time.isSome = true) ∧
  (cb.state = .CLOSED → cb.failure_count < cb.failure_threshold) ∧
  (cb.state = .HALF_OPEN →
    cb.failure_threshold ≤ cb.failure_count ∧ cb.last_failure_time.isSome = true)

/-- The breaker state reached from `CircuitBreaker.init 3 300` by a single
call whose wrapped operation fails at time 7. -/
def cbDemoState : CircuitBreaker :=
  ((CircuitBreaker.init 3 300).call "fetch_news" 7
    (.error ⟨"RequestException", "down"⟩ : Except Err Unit)).cb

/-- A news item in the format built by news.py (the dictionaries with
title, summary, url, source, published_at and why_it_matters). -/
structure NewsItem where
  title : String
  summary : String
  url : String
  source : String
  published_at : String
  why_it_matters : String
deriving DecidableEq, Repr

/-- Python truthiness of the `NEWSAPI_KEY` configuration value: `None` or
the empty string are falsy. -/
def keyConfigured : Option String → Bool
  | none => false
  | some s => !(s == "")

/-- `fetch_news_monthly` (news.py, lines 31-98): return `[]` when
`NEWSAPI_KEY` is not configured; otherwise run the try block of lines
56-91 (the HTTP request and the response processing, abstracted here as
`body`, the outcome that computation produces) and return its list, with
both except branches (`requests.exceptions.RequestException` at line 93
and `Exception` at line 96) returning `[]`. -/
def fetch_news_monthly (newsapi_key : Option String)
    (body : Except Err (List NewsItem)) : List NewsItem :=
  if keyConfigured newsapi_key then
    match body with
    | .ok items => items
    | .error _ => []
  else
    []

/-- The body of `fetch_news_perplexity` (news.py, lines 103-178): the try
block of lines 139-173 (the HTTP request and response parsing, abstracted
as `inner`, the outcome that computation produces) with the
`except Exception` branch at lines 175-178 returning `[]`; the body
itself never raises. -/
def fetch_news_perplexity_body (inner : Except Err (List NewsItem)) :
    List NewsItem :=
  match inner with
  | .ok items => items
  | .error _ => []

/-- The decorator arguments at news.py line 100:
`retry_with_backoff(max_attempts=3, base_delay=1.0,
exceptions=(requests.RequestException,))`, with the defaults
`max_delay=60.0` and `backoff_multiplier=2.0`. -/
def perplexityRetryPolicy : RetryPolicy :=
  ⟨3, 1, 60, 2, ["RequestException"]⟩

/-- `fetch_news_perplexity` as called through its decorator: the retry
wrapper around the (never-raising) function body, where `inner i` is the
outcome of the try block on the i-th invocation. -/
def fetch_news_perplexity (inner : Nat → Except Err (List NewsItem)) :
    RetryResult (List NewsItem) :=
  runRetry perplexityRetryPolicy
    (fun i => .ok (fetch_news_perplexity_body (inner i)))

example : runRetry ⟨3, 1, 60, 2, ["E"]⟩
    (fun _ => (.error ⟨"E", "x"⟩ : Except Err Unit)) =
    ⟨3, [1, 2], .raised ⟨"E", "x"⟩⟩ := by
  show retryAux _ _ 0 (2 + 1) = _
  simp [retryAux, backoffDelay]
  norm_num

example : runRetry ⟨3, 1, 60, 2, ["E"]⟩ (fun _ => (.ok 5 : Except Err Nat)) =
    ⟨1, [], .ok 5⟩ := by
  show retryAux _ _ 0 (2 + 1) = _
  simp [retryAux]

/-- If every invocation from `attempt` on fails with a retryable error,
the remaining loop performs all `fuel` remaining invocations, sleeps once
per non-final attempt with the backoff delay of that attempt's index, and
re-raises the error of the final attempt. -/
theorem retryAux_allFail {α : Type} (p : RetryPolicy) (op : Nat → Except Err α)
    (elast : Err) (hlast : op (p.max_attempts - 1) = .error elast) :
    ∀ fuel attempt, 1 ≤ fuel → attempt + fuel = p.max_attempts →
      (∀ i, attempt ≤ i → ∃ e, op i = .error e ∧ e.kind ∈ p.retryable_kinds) →
      retryAux p op attempt fuel =
        ⟨fuel, (List.range' attempt (fuel - 1)).map (backoffDelay p),
          .raised elast⟩ := by
  intro fuel
  induction fuel with
  | zero => intro attempt h1 _ _; omega
  | succ f ih =>
    intro attempt _ hsum hfail
    obtain ⟨e, he, hk⟩ := hfail attempt (le_refl _)
    by_cases hfin : attempt = p.max_attempts - 1
    · have hf0 : f = 0 := by omega
      subst hf0
      have hee : e = elast := by
        rw [hfin, hlast] at he
        exact (Except.error.injEq _ _).mp he.symm
      subst hee
      simp [retryAux, he, hk, hfin, hlast]
    · have hf1 : 1 ≤ f := by omega
      have hrec := ih (attempt + 1) hf1 (by omega)
        (fun i hi => hfail i (by omega))
      simp [retryAux, he, hk, hfin, hrec]
      obtain ⟨f', rfl⟩ : ∃ f', f = f' + 1 := ⟨f - 1, by omega⟩
      simp [List.range'_succ]

/-- If invocations `attempt ≤ i < j` fail with retryable errors and
invocation `j` succeeds with `v`, the remaining loop performs
`j - attempt + 1` invocations and returns `v`. -/
theorem retryAux_succeedsAt {α : Type} (p : RetryPolicy) (op : Nat → Except Err α)
    (v : α) (j : Nat) (hj : op j = .ok v) :
    ∀ fuel attempt, attempt + fuel = p.max_attempts → attempt ≤ j →
      j < p.max_attempts →
      (∀ i, attempt ≤ i → i < j → ∃ e, op i = .error e ∧ e.kind ∈ p.retryable_kinds) →
      (retryAux p op attempt fuel).invocations = j - attempt + 1 ∧
      (retryAux p op attempt fuel).result = .ok v := by
  intro fuel
  induction fuel with
  | zero => intro attempt hsum hle hlt _; omega
  | succ f ih =>
    intro attempt hsum hle hlt hfail
    by_cases hei : attempt = j
    · subst hei
      simp [retryAux, hj]
    · have hlt' : attempt < j := lt_of_le_of_ne hle hei
      obtain ⟨e, he, hk⟩ := hfail attempt (le_refl _) hlt'
      have hfin : ¬ attempt = p.max_attempts - 1 := by omega
      have hrec := ih (attempt + 1) (by omega) (by omega) hlt
        (fun i hi hi' => hfail i (by omega) hi')
      simp [retryAux, he, hk, hfin, hrec.1, hrec.2]
      omega

/-- As long as at least one loop iteration remains, the loop itself
returns or raises: the fall-through `raise last_exception` at line 44 is
never the outcome. -/
theorem retryAux_ne_raisedNone {α : Type} (p : RetryPolicy) (op : Nat → Except Err α) :
    ∀ fuel attempt, 1 ≤ fuel → attempt + fuel = p.max_attempts →
      (retryAux p op attempt fuel).result ≠ .raisedNone := by
  intro fuel
  induction fuel with
  | zero => intro attempt h1 _; omega
  | succ f ih =>
    intro attempt _ hsum
    match hop : op attempt with
    | .ok v => simp [retryAux, hop]
    | .error e =>
      by_cases hk : e.kind ∈ p.retryable_kinds
      · by_cases hfin : attempt = p.max_attempts - 1
        · have hop' : op (p.max_attempts - 1) = .error e := hfin ▸ hop
          simp [retryAux, hop, hk, hfin, hop']
        · have hf1 : 1 ≤ f := by omega
          have hrec := ih (attempt + 1) hf1 (by omega)
          simp [retryAux, hop, hk, hfin]
          exact hrec
      · simp [retryAux, hop, hk]

/-- If the very first invocation succeeds, the wrapper returns that value
after exactly one invocation and no sleep. -/
theorem runRetry_first_success {α : Type} (p : RetryPolicy) (op : Nat → Except Err α)
    (v : α) (hN : 1 ≤ p.max_attempts) (h0 : op 0 = .ok v) :
    runRetry p op = ⟨1, [], .ok v⟩ := by
  obtain ⟨m, hm⟩ : ∃ m, p.max_attempts = m + 1 := ⟨p.max_attempts - 1, by omega⟩
  unfold runRetry
  rw [hm]
  simp [retryAux, h0]

/-- Claim C1: for `max_attempts = N ≥ 1` and an operation failing on every
attempt with a retryable error kind, the wrapper produced by
`retry_with_backoff` invokes the operation exactly N times and sleeps
exactly N-1 times, the delay before retry i+1 being
`min(base_delay * backoff_multiplier^i, max_delay)` for i in [0, N-2];
no delay occurs after the final failing attempt. -/
theorem retry_allfail_invocations_and_delays {α : Type} (p : RetryPolicy)
    (op : Nat → Except Err α) (hN : 1 ≤ p.max_attempts)
    (hfail : ∀ i, ∃ e, op i = .error e ∧ e.kind ∈ p.retryable_kinds) :
    (runRetry p op).invocations = p.max_attempts ∧
    (runRetry p op).delays.length = p.max_attempts - 1 ∧
    (runRetry p op).delays = (List.range (p.max_attempts - 1)).map
      (fun i => min (p.base_delay * p.backoff_multiplier ^ i) p.max_delay) := by
  obtain ⟨elast, hlast, _⟩ := hfail (p.max_attempts - 1)
  have h := retryAux_allFail p op elast hlast p.max_attempts 0 hN (by omega)
    (fun i _ => hfail i)
  unfold runRetry
  rw [h]
  refine ⟨rfl, by simp, ?_⟩
  rw [List.range_eq_range']
  rfl

/-- Witness for C1 at `max_attempts = 3, base_delay = 1, max_delay = 60,
backoff_multiplier = 2` and an operation always failing with kind "E". -/
theorem retry_allfail_invocations_and_delays_w :
    (runRetry ⟨3, 1, 60, 2, ["E"]⟩
      (fun _ => (.error ⟨"E", "x"⟩ : Except Err Unit))).invocations = 3 ∧
    (runRetry ⟨3, 1, 60, 2, ["E"]⟩
      (fun _ => (.error ⟨"E", "x"⟩ : Except Err Unit))).delays.length = 3 - 1 ∧
    (runRetry ⟨3, 1, 60, 2, ["E"]⟩
      (fun _ => (.error ⟨"E", "x"⟩ : Except Err Unit))).delays =
      (List.range (3 - 1)).map (fun i => min ((1 : ℚ) * 2 ^ i) 60) :=
  retry_allfail_invocations_and_delays ⟨3, 1, 60, 2, ["E"]⟩
    (fun _ => (.error ⟨"E", "x"⟩ : Except Err Unit)) (by decide)
    (fun _ => ⟨⟨"E", "x"⟩, rfl, by simp⟩)

/-- Claim C5: when every attempt fails with a retryable error, the wrapper
re-raises the error object of the final attempt unchanged, with no
further delay after the final attempt. -/
theorem retry_reraises_final_error_unchanged {α : Type} (p : RetryPolicy)
    (op : Nat → Except Err α) (elast : Err) (hN : 1 ≤ p.max_attempts)
    (hfail : ∀ i, ∃ e, op i = .error e ∧ e.kind ∈ p.retryable_kinds)
    (hlast : op (p.max_attempts - 1) = .error elast) :
    (runRetry p op).result = .raised elast ∧
    (runRetry p op).delays.length = p.max_attempts - 1 := by
  have h := retryAux_allFail p op elast hlast p.max_attempts 0 hN (by omega)
    (fun i _ => hfail i)
  unfold runRetry
  rw [h]
  exact ⟨rfl, by simp⟩

/-- Witness for C5: the error of the third and final failing attempt is
re-raised with its kind and message intact. -/
theorem retry_reraises_final_error_unchanged_w :
    (runRetry ⟨3, 1, 60, 2, ["E"]⟩
      (fun i => (.error ⟨"E", "failure " ++ toString i⟩ : Except Err Unit))).result =
      .raised ⟨"E", "failure 2"⟩ ∧
    (runRetry ⟨3, 1, 60, 2, ["E"]⟩
      (fun i => (.error ⟨"E", "failure " ++ toString i⟩ : Except Err Unit))).delays.length =
      3 - 1 :=
  retry_reraises_final_error_unchanged ⟨3, 1, 60, 2, ["E"]⟩
    (fun i => (.error ⟨"E", "failure " ++ toString i⟩ : Except Err Unit))
    ⟨"E", "failure 2"⟩ (by decide)
    (fun i => ⟨⟨"E", "failure " ++ toString i⟩, rfl, by simp⟩) rfl

/-- Claim C6: an error whose kind is not among the retryable kinds, raised
on the first attempt, is propagated immediately: exactly one invocation,
no sleep, the error unchanged. -/
theorem retry_nonretryable_propagates_immediately {α : Type} (p : RetryPolicy)
    (op : Nat → Except Err α) (e : Err) (hN : 1 ≤ p.max_attempts)
    (h0 : op 0 = .error e) (hk : e.kind ∉ p.retryable_kinds) :
    runRetry p op = ⟨1, [], .raised e⟩ := by
  obtain ⟨m, hm⟩ : ∃ m, p.max_attempts = m + 1 := ⟨p.max_attempts - 1, by omega⟩
  unfold runRetry
  rw [hm]
  simp [retryAux, h0, hk]

/-- Witness for C6: a "ValueError" is not retried by a policy that only
retries "RequestException". -/
theorem retry_nonretryable_propagates_immediately_w :
    runRetry ⟨3, 1, 60, 2, ["RequestException"]⟩
      (fun _ => (.error ⟨"ValueError", "bad"⟩ : Except Err Unit)) =
      ⟨1, [], .raised ⟨"ValueError", "bad"⟩⟩ :=
  retry_nonretryable_propagates_immediately ⟨3, 1, 60, 2, ["RequestException"]⟩
    (fun _ => (.error ⟨"ValueError", "bad"⟩ : Except Err Unit))
    ⟨"ValueError", "bad"⟩ (by decide) rfl (by simp)

/-- Claim C8: an operation failing retryably on attempts 1..k-1 and
succeeding on attempt k (1-based, k ≤ max_attempts) is invoked exactly k
times and the wrapper returns attempt k's success value. -/
theorem retry_stops_at_first_success {α : Type} (p : RetryPolicy)
    (op : Nat → Except Err α) (v : α) (k : Nat) (hk1 : 1 ≤ k)
    (hkN : k ≤ p.max_attempts)
    (hfail : ∀ i, i < k - 1 → ∃ e, op i = .error e ∧ e.kind ∈ p.retryable_kinds)
    (hsucc : op (k - 1) = .ok v) :
    (runRetry p op).invocations = k ∧ (runRetry p op).result = .ok v := by
  have h := retryAux_succeedsAt p op v (k - 1) hsucc p.max_attempts 0 (by omega)
    (by omega) (by omega) (fun i _ hi => hfail i hi)
  unfold runRetry
  refine ⟨?_, h.2⟩
  rw [h.1]
  omega

/-- Witness for C8 at k = 2: one retryable failure, then success with 42;
two invocations, value 42 returned. -/
theorem retry_stops_at_first_success_w :
    (runRetry ⟨3, 1, 60, 2, ["E"]⟩
      (fun i => if i = 0 then .error ⟨"E", "x"⟩ else (.ok 42 : Except Err Nat))).invocations = 2 ∧
    (runRetry ⟨3, 1, 60, 2, ["E"]⟩
      (fun i => if i = 0 then .error ⟨"E", "x"⟩ else (.ok 42 : Except Err Nat))).result =
      .ok 42 :=
  retry_stops_at_first_success ⟨3, 1, 60, 2, ["E"]⟩
    (fun i => if i = 0 then .error ⟨"E", "x"⟩ else (.ok 42 : Except Err Nat))
    42 2 (by decide) (by decide)
    (by
      intro i hi
      have h0 : i = 0 := by omega
      subst h0
      exact ⟨⟨"E", "x"⟩, rfl, by simp⟩)
    rfl

/-- Claim C10: when `max_attempts ≥ 1` the fall-through
`raise last_exception` at line 44 is unreachable — every call returns or
raises from inside the attempt loop; when `max_attempts = 0` the
operation is invoked zero times and the wrapper raises
`last_exception = None`, which is not a valid error value. -/
theorem retry_fallback_raise_unreachable {α : Type} (p : RetryPolicy)
    (op : Nat → Except Err α) :
    (1 ≤ p.max_attempts → (runRetry p op).result ≠ .raisedNone) ∧
    (p.max_attempts = 0 → runRetry p op = ⟨0, [], .raisedNone⟩) := by
  constructor
  · intro hN
    exact retryAux_ne_raisedNone p op p.max_attempts 0 hN (by omega)
  · intro h0
    unfold runRetry
    rw [h0]
    rfl

/-- Witness for C10: with 3 attempts the fall-through raise never happens;
with 0 attempts the operation is never invoked and the wrapper raises the
invalid `None`. -/
theorem retry_fallback_raise_unreachable_w :
    (runRetry ⟨3, 1, 60, 2, ["E"]⟩
      (fun _ => (.error ⟨"E", "x"⟩ : Except Err Unit))).result ≠ .raisedNone ∧
    runRetry ⟨0, 1, 60, 2, ["E"]⟩
      (fun _ => (.error ⟨"E", "x"⟩ : Except Err Unit)) = ⟨0, [], .raisedNone⟩ :=
  ⟨(retry_fallback_raise_unreachable ⟨3, 1, 60, 2, ["E"]⟩
      (fun _ => (.error ⟨"E", "x"⟩ : Except Err Unit))).1 (by decide),
   (retry_fallback_raise_unreachable ⟨0, 1, 60, 2, ["E"]⟩
      (fun _ => (.error ⟨"E", "x"⟩ : Except Err Unit))).2 rfl⟩

theorem rat_ten_minus_zero_lt_300 : (10 : ℚ) - 0 < 300 := by norm_num

theorem rat_300_le_301_minus_zero : (300 : ℚ) ≤ 301 - 0 := by norm_num

/-- Claim C2: while OPEN with `now - last_failure_time < recovery_timeout`,
a call raises without invoking the wrapped operation and leaves the
breaker's state, failure_count and last_failure_time exactly as they
were: the whole call record is the unchanged breaker, a rejection error,
and `invoked = false`. -/
theorem breaker_open_rejects_without_side_effects {α : Type}
    (cb : CircuitBreaker) (fname : String) (now t : ℚ) (opRes : Except Err α)
    (hstate : cb.state = .OPEN) (hlft : cb.last_failure_time = some t)
    (hrec : now - t < cb.recovery_timeout) :
    cb.call fname now opRes = ⟨cb, .error (circuitOpenError fname), false⟩ := by
  have hs : cb.should_attempt_reset now = false := by
    simp [CircuitBreaker.should_attempt_reset, hlft]
    exact hrec
  simp [CircuitBreaker.call, hstate, hs]

/-- Witness for C2: an OPEN breaker (threshold 3, timeout 300, last
failure at 0) rejects a call at time 10 without invoking the operation
and without changing any field. -/
theorem breaker_open_rejects_without_side_effects_w :
    CircuitBreaker.call ⟨3, 300, 3, some 0, .OPEN⟩ "fetch_news" 10
      (.ok () : Except Err Unit) =
      ⟨⟨3, 300, 3, some 0, .OPEN⟩, .error (circuitOpenError "fetch_news"), false⟩ :=
  breaker_open_rejects_without_side_effects ⟨3, 300, 3, some 0, .OPEN⟩
    "fetch_news" 10 0 (.ok () : Except Err Unit) rfl rfl
    rat_ten_minus_zero_lt_300

/-- Claim C3: while OPEN with `now - last_failure_time >= recovery_timeout`
(and, as holds in every reachable OPEN state, `failure_count` at least the
threshold), the call is let through as a HALF_OPEN probe: a successful
probe yields state CLOSED with failure_count 0 and returns the value; a
failing probe yields state OPEN with last_failure_time updated to the
probe's time, re-raising the probe's error. -/
theorem breaker_halfopen_probe {α : Type} (cb : CircuitBreaker)
    (fname : String) (now t : ℚ) (v : α) (e : Err)
    (hstate : cb.state = .OPEN) (hlft : cb.last_failure_time = some t)
    (hrec : cb.recovery_timeout ≤ now - t)
    (hfc : cb.failure_threshold ≤ cb.failure_count) :
    (cb.call fname now (.ok v)).invoked = true ∧
    (cb.call fname now (.ok v)).cb.state = .CLOSED ∧
    (cb.call fname now (.ok v)).cb.failure_count = 0 ∧
    (cb.call fname now (.ok v)).result = .ok v ∧
    (cb.call fname now (.error e) : CBCall α).invoked = true ∧
    (cb.call fname now (.error e) : CBCall α).cb.state = .OPEN ∧
    (cb.call fname now (.error e) : CBCall α).cb.last_failure_time = some now ∧
    (cb.call fname now (.error e) : CBCall α).result = .error e := by
  have hs : cb.should_attempt_reset now = true := by
    simp [CircuitBreaker.should_attempt_reset, hlft]
    exact hrec
  have hif : cb.failure_threshold ≤ cb.failure_count + 1 := by omega
  simp [CircuitBreaker.call, hstate, hs, CircuitBreaker.runOp,
    CircuitBreaker.on_success, CircuitBreaker.on_failure, hif]

/-- Witness for C3: a probe at time 301 on an OPEN breaker (threshold 3,
timeout 300, last failure at 0) either closes the circuit on success or
re-opens it with the timer restarted on failure. -/
theorem breaker_halfopen_probe_w :
    (CircuitBreaker.call ⟨3, 300, 3, some 0, .OPEN⟩ "fetch_news" 301
      (.ok () : Except Err Unit)).invoked = true ∧
    (CircuitBreaker.call ⟨3, 300, 3, some 0, .OPEN⟩ "fetch_news" 301
      (.ok () : Except Err Unit)).cb.state = .CLOSED ∧
    (CircuitBreaker.call ⟨3, 300, 3, some 0, .OPEN⟩ "fetch_news" 301
      (.ok () : Except Err Unit)).cb.failure_count = 0 ∧
    (CircuitBreaker.call ⟨3, 300, 3, some 0, .OPEN⟩ "fetch_news" 301
      (.ok () : Except Err Unit)).result = .ok () ∧
    (CircuitBreaker.call ⟨3, 300, 3, some 0, .OPEN⟩ "fetch_news" 301
      (.error ⟨"RequestException", "down"⟩) : CBCall Unit).invoked = true ∧
    (CircuitBreaker.call ⟨3, 300, 3, some 0, .OPEN⟩ "fetch_news" 301
      (.error ⟨"RequestException", "down"⟩) : CBCall Unit).cb.state = .OPEN ∧
    (CircuitBreaker.call ⟨3, 300, 3, some 0, .OPEN⟩ "fetch_news" 301
      (.error ⟨"RequestException", "down"⟩) : CBCall Unit).cb.last_failure_time =
      some 301 ∧
    (CircuitBreaker.call ⟨3, 300, 3, some 0, .OPEN⟩ "fetch_news" 301
      (.error ⟨"RequestException", "down"⟩) : CBCall Unit).result =
      .error ⟨"RequestException", "down"⟩ :=
  breaker_halfopen_probe ⟨3, 300, 3, some 0, .OPEN⟩ "fetch_news" 301 0 ()
    ⟨"RequestException", "down"⟩ rfl rfl rat_300_le_301_minus_zero (by decide)

/-- One call through the breaker never changes its configuration fields. -/
theorem CircuitBreaker.call_config {α : Type} (cb : CircuitBreaker)
    (fname : String) (now : ℚ) (opRes : Except Err α) :
    ((cb.call fname now opRes).cb).failure_threshold = cb.failure_threshold ∧
    ((cb.call fname now opRes).cb).recovery_timeout = cb.recovery_timeout := by
  unfold CircuitBreaker.call
  by_cases hs : cb.state = .OPEN <;>
    by_cases hr : cb.should_attempt_reset now = true <;>
      cases opRes <;>
        simp [hs, hr, CircuitBreaker.runOp, CircuitBreaker.on_success,
          CircuitBreaker.on_failure] <;>
          split <;> simp

/-- The invariant is preserved by every call through the breaker's
wrapper, provided the configured threshold is positive. -/
theorem CBInv_call {α : Type} (cb : CircuitBreaker) (fname : String)
    (now : ℚ) (opRes : Except Err α) (hth : 1 ≤ cb.failure_threshold)
    (hinv : CBInv cb) : CBInv ((cb.call fname now opRes).cb) := by
  obtain ⟨hO, hC, hH⟩ := hinv
  unfold CircuitBreaker.call
  by_cases hs : cb.state = .OPEN
  · by_cases hr : cb.should_attempt_reset now = true
    · cases opRes with
      | ok v =>
        simp [hs, hr, CircuitBreaker.runOp, CircuitBreaker.on_success, CBInv]
        omega
      | error e =>
        have hfc := (hO hs).1
        have hif : cb.failure_threshold ≤ cb.failure_count + 1 := by omega
        simp [hs, hr, CircuitBreaker.runOp, CircuitBreaker.on_failure, hif, CBInv]
    · simp [hs, hr]
      exact ⟨hO, hC, hH⟩
  · cases opRes with
    | ok v =>
      simp [hs, CircuitBreaker.runOp, CircuitBreaker.on_success, CBInv]
      omega
    | error e =>
      by_cases hif : cb.failure_threshold ≤ cb.failure_count + 1
      · simp [hs, CircuitBreaker.runOp, CircuitBreaker.on_failure, hif, CBInv]
      · simp [hs, CircuitBreaker.runOp, CircuitBreaker.on_failure, hif, CBInv]
        cases hstate : cb.state with
        | CLOSED => simp [hstate]; omega
        | OPEN => exact absurd hstate hs
        | HALF_OPEN =>
          have := (hH hstate).1
          omega

/-- Reachable breaker states keep the configured threshold and timeout. -/
theorem CBReachable_config (th : Nat) (rt : ℚ) (cb : CircuitBreaker)
    (h : CBReachable th rt cb) :
    cb.failure_threshold = th ∧ cb.recovery_timeout = rt := by
  induction h with
  | init => exact ⟨rfl, rfl⟩
  | step cb fname now opRes _ ih =>
    have hc := CircuitBreaker.call_config cb fname now opRes
    exact ⟨hc.1.trans ih.1, hc.2.trans ih.2⟩

/-- Every reachable breaker state satisfies the invariant. -/
theorem CBReachable_inv (th : Nat) (rt : ℚ) (cb : CircuitBreaker)
    (hth : 1 ≤ th) (h : CBReachable th rt cb) : CBInv cb := by
  induction h with
  | init =>
    refine ⟨by simp [CircuitBreaker.init], ?_, by simp [CircuitBreaker.init]⟩
    intro _
    simpa [CircuitBreaker.init] using hth
  | step cb fname now opRes hr ih =>
    have hcfg := (CBReachable_config th rt cb hr).1
    exact CBInv_call cb fname now opRes (by omega) ih

/-- Claim C4: in every state reachable from the initial breaker state
(CLOSED, failure_count 0, last_failure_time None) by any sequence of
wrapped calls, OPEN implies failure_count at least the threshold with
last_failure_time set, and CLOSED implies failure_count below the
threshold (threshold configured positive). -/
theorem breaker_reachable_invariant (th : Nat) (rt : ℚ) (cb : CircuitBreaker)
    (hth : 1 ≤ th) (h : CBReachable th rt cb) :
    (cb.state = .OPEN → th ≤ cb.failure_count ∧ cb.last_failure_time.isSome = true) ∧
    (cb.state = .CLOSED → cb.failure_count < th) := by
  have hinv := CBReachable_inv th rt cb hth h
  have hcfg := (CBReachable_config th rt cb h).1
  unfold CBInv at hinv
  rw [hcfg] at hinv
  exact ⟨hinv.1, hinv.2.1⟩

/-- Witness for C4: the invariant holds at the state `cbDemoState`
obtained from the initial breaker (threshold 3, timeout 300) after one
failing call. -/
theorem breaker_reachable_invariant_w :
    (cbDemoState.state = .OPEN →
      3 ≤ cbDemoState.failure_count ∧ cbDemoState.last_failure_time.isSome = true) ∧
    (cbDemoState.state = .CLOSED → cbDemoState.failure_count < 3) :=
  breaker_reachable_invariant 3 300 cbDemoState (by decide)
    (CBReachable.step (CircuitBreaker.init 3 300) "fetch_news" 7
      (.error ⟨"RequestException", "down"⟩) CBReachable.init)

/-- Counterexample to claim C7: the error raised when rejecting a call in
the OPEN state is built at retry_utils.py line 68 as a plain `Exception`,
not a distinct `CircuitOpenError` type. At a concrete OPEN breaker
(threshold 3, timeout 300, last failure at 0) and time 10, the rejection
error's kind is "Exception" — identical to the kind of an error the
wrapped operation itself can raise, so the two are not distinguishable by
type. -/
theorem breaker_rejection_not_distinct_kind_cex :
    (CircuitBreaker.call ⟨3, 300, 3, some 0, .OPEN⟩ "fetch_news" 10
      (.error ⟨"Exception", "boom"⟩ : Except Err Unit)).result =
      .error (circuitOpenError "fetch_news") ∧
    (circuitOpenError "fetch_news").kind = (Err.mk "Exception" "boom").kind := by
  constructor
  · have hs : (CircuitBreaker.mk 3 300 3 (some 0) .OPEN).should_attempt_reset 10
        = false := by
      simp [CircuitBreaker.should_attempt_reset]
      norm_num
    simp [CircuitBreaker.call, hs]
  · rfl

/-- Claim C7 as amended: the error raised by the breaker when rejecting a
call in the OPEN state before recovery_timeout elapses is a plain
`Exception` whose message is "Circuit breaker is OPEN for " followed by
the wrapped function's name; it is distinguishable from the wrapped
operation's own errors only by that message, not by a distinct
`CircuitOpenError` type. -/
theorem breaker_rejection_is_plain_exception {α : Type} (cb : CircuitBreaker)
    (fname : String) (now t : ℚ) (opRes : Except Err α)
    (hstate : cb.state = .OPEN) (hlft : cb.last_failure_time = some t)
    (hrec : now - t < cb.recovery_timeout) :
    (cb.call fname now opRes).result =
      .error ⟨"Exception", "Circuit breaker is OPEN for " ++ fname⟩ := by
  have hs : cb.should_attempt_reset now = false := by
    simp [CircuitBreaker.should_attempt_reset, hlft]
    exact hrec
  simp [CircuitBreaker.call, hstate, hs, circuitOpenError]

/-- Witness for the amended C7: the concrete rejection carries kind
"Exception" and the circuit-open message. -/
theorem breaker_rejection_is_plain_exception_w :
    (CircuitBreaker.call ⟨3, 300, 3, some 0, .OPEN⟩ "fetch_news" 10
      (.ok () : Except Err Unit)).result =
      .error ⟨"Exception", "Circuit breaker is OPEN for " ++ "fetch_news"⟩ :=
  breaker_rejection_is_plain_exception ⟨3, 300, 3, some 0, .OPEN⟩ "fetch_news"
    10 0 (.ok () : Except Err Unit) rfl rfl rat_ten_minus_zero_lt_300

/-- Claim C9: when the remote news request or its response processing
fails (any error outcome of the fetch body), `fetch_news_monthly` and
`fetch_news_perplexity` return the empty list instead of propagating the
error; the degrade-to-empty fallback lives in news.py, not in the core:
the retry wrapper itself never converts a failing operation into a
returned value. -/
theorem news_fetch_degrades_to_empty (newsapi_key : Option String) (e : Err)
    (inner : Nat → Except Err (List NewsItem)) (p : RetryPolicy)
    (op : Nat → Except Err (List NewsItem)) (l : List NewsItem)
    (hinner : inner 0 = .error e) (hN : 1 ≤ p.max_attempts)
    (hfail : ∀ i, ∃ e2, op i = .error e2 ∧ e2.kind ∈ p.retryable_kinds) :
    fetch_news_monthly newsapi_key (.error e) = [] ∧
    (fetch_news_perplexity inner).result = .ok [] ∧
    (runRetry p op).result ≠ .ok l := by
  refine ⟨?_, ?_, ?_⟩
  · by_cases h : keyConfigured newsapi_key = true
    · simp [fetch_news_monthly, h]
    · simp [fetch_news_monthly, h]
  · have h := runRetry_first_success perplexityRetryPolicy
      (fun i => .ok (fetch_news_perplexity_body (inner i)))
      (fetch_news_perplexity_body (inner 0)) (by decide) rfl
    unfold fetch_news_perplexity
    rw [h]
    simp [fetch_news_perplexity_body, hinner]
  · obtain ⟨elast, hlast, _⟩ := hfail (p.max_attempts - 1)
    have h := retryAux_allFail p op elast hlast p.max_attempts 0 hN (by omega)
      (fun i _ => hfail i)
    unfold runRetry
    rw [h]
    simp

/-- Witness for C9: a concrete request failure makes both fetchers return
the empty list, while the core wrapper would raise for a failing
operation rather than return a value. -/
theorem news_fetch_degrades_to_empty_w :
    fetch_news_monthly (some "key") (.error ⟨"RequestException", "timeout"⟩) = [] ∧
    (fetch_news_perplexity
      (fun _ => .error ⟨"RequestException", "timeout"⟩)).result = .ok [] ∧
    (runRetry ⟨3, 1, 60, 2, ["E"]⟩
      (fun _ => (.error ⟨"E", "x"⟩ : Except Err (List NewsItem)))).result ≠
      .ok [] :=
  news_fetch_degrades_to_empty (some "key") ⟨"RequestException", "timeout"⟩
    (fun _ => .error ⟨"RequestException", "timeout"⟩) ⟨3, 1, 60, 2, ["E"]⟩
    (fun _ => .error ⟨"E", "x"⟩) [] rfl (by decide)
    (fun _ => ⟨⟨"E", "x"⟩, rfl, by simp⟩)
